import Mathlib

/-!
Shallow embedding of the `process` package of the
FUTURETECH6/software-engineering-backend repository (Go): the admission
engine (`CreateRegistration`), booking lifecycle (`UpdateRegistrationStatus`),
milestone management (`UpdateMileStoneByDoctor`, `DeleteMileStoneByDoctor`),
the authorization helpers (`DoctorAccessToMileStone`,
`DoctorAccessToRegistration`, `PatientAccessToRegistration`) and `StrToUInt`.

The durable store (gorm) is modelled as lists of records inside a `DB`
structure; `db.Where(&struct)` queries follow gorm's struct-condition
semantics (zero-valued fields of the condition struct are omitted from the
query).  The records follow the fields as the handlers in the provided
source actually use them (`Year`/`Month`/`Day` integer fields on
`Registration` and `DepartmentSchedule`).  Go `uint` primary keys are
modelled as `Nat`, Go `int` fields as `Int`, string enums as `String`.
Fallible store writes (`db.Create`, `db.Save`) are modelled by an explicit
fault oracle, since the handler checks and branches on their errors.
-/

/-- `RegistrationStatusEnum` is a string type in the source. -/
def committed : String := "committed"

/-- The `accepted` status constant. -/
def accepted : String := "accepted"

/-- The `terminated` status constant. -/
def terminated : String := "terminated"

/-- The `morning` half-day constant. -/
def morning : String := "morning"

/-- The `afternoon` half-day constant. -/
def afternoon : String := "afternoon"

/-- The `whole` half-day constant. -/
def whole : String := "whole"

/-- Registration record (booking), fields as used by the handlers.
Go zero values: numeric fields 0, strings empty. -/
structure Registration where
  ID : Nat
  DoctorID : Nat
  PatientID : Nat
  DepartmentID : Nat
  Year : Int
  Month : Int
  Day : Int
  HalfDay : String
  Status : String
  TerminatedCause : String
deriving DecidableEq

/-- The Go zero value of `Registration` (what `db.First` leaves behind on a
lookup failure whose error is ignored). -/
def zeroRegistration : Registration :=
  { ID := 0, DoctorID := 0, PatientID := 0, DepartmentID := 0,
    Year := 0, Month := 0, Day := 0, HalfDay := "", Status := "",
    TerminatedCause := "" }

/-- DepartmentSchedule record (a bookable slot): capacity and current
occupancy for one (department, date, half-day). -/
structure DepartmentSchedule where
  ID : Nat
  DepartmentID : Nat
  Year : Int
  Month : Int
  Day : Int
  HalfDay : String
  Capacity : Int
  Current : Int
deriving DecidableEq

/-- MileStone record. -/
structure MileStone where
  ID : Nat
  RegistrationID : Nat
  Activity : String
  Checked : Bool
deriving DecidableEq

/-- The Go zero value of `MileStone`. -/
def zeroMileStone : MileStone :=
  { ID := 0, RegistrationID := 0, Activity := "", Checked := false }

/-- Department record (only the fields the admission path reads). -/
structure Department where
  ID : Nat
  Name : String
deriving DecidableEq

/-- Doctor record (`account.Doctor`, the fields the admission path reads). -/
structure Doctor where
  ID : Nat
  AccountID : Nat
  DepartmentID : Nat
deriving DecidableEq

/-- Patient record (`account.Patient`, the fields the admission path reads). -/
structure Patient where
  ID : Nat
  AccountID : Nat
deriving DecidableEq

/-- The durable store: one list per gorm table, plus the autoincrement
counter for registration primary keys. -/
structure DB where
  departments : List Department
  patients : List Patient
  doctors : List Doctor
  registrations : List Registration
  schedules : List DepartmentSchedule
  milestones : List MileStone
  nextRegID : Nat
deriving DecidableEq

/-- Fault oracle for the two store writes of the admission commit:
whether `db.Create(&registration)` and `db.Save(&schedule)` error.  The Go
code checks both errors, so both outcomes are part of its behavior. -/
structure StoreFaults where
  createFails : Bool
  saveFails : Bool
deriving DecidableEq

/-- Error outcomes of the handlers (names follow the source's error
constants; `ParseError` and `RecordNotFound` stand for the raw
`strconv`/gorm errors the source returns directly). -/
inductive ProcessError where
  | InvalidSubmitFormat
  | DepartmentNotFound
  | PatientNotFound
  | DuplicateRegistration
  | InvalidSchedule
  | NotEnoughCapacity
  | CannotAssignDoctor
  | InvalidRegistration
  | MissingTerminatedCause
  | Unauthorized
  | ParseError
  | RecordNotFound
deriving DecidableEq

instance {ε α : Type} [DecidableEq ε] [DecidableEq α] :
    DecidableEq (Except ε α) := fun a b =>
  match a, b with
  | .ok x, .ok y =>
      if h : x = y then .isTrue (by rw [h]) else .isFalse (by simp [h])
  | .error x, .error y =>
      if h : x = y then .isTrue (by rw [h]) else .isFalse (by simp [h])
  | .ok _, .error _ => .isFalse (by simp)
  | .error _, .ok _ => .isFalse (by simp)

/-- The body of `CreateRegistration`'s submit JSON. -/
structure Submit where
  DepartmentID : Nat
  Year : Int
  Month : Int
  Day : Int
  HalfDay : String
deriving DecidableEq

/-- Modelled from the spec: the `halfday` validator registered elsewhere in
the repository (not among the provided sources) accepts exactly the
enumerated period set {morning, afternoon, whole-day}. -/
def isValidHalfDay (h : String) : Bool :=
  h == morning || h == afternoon || h == whole

/-- gorm struct-condition semantics for `db.Where(&Registration{...})`:
every non-zero field of the condition struct must match; zero-valued
fields are omitted from the query. -/
def whereReg (q r : Registration) : Bool :=
  (q.ID == 0 || r.ID == q.ID) &&
  (q.DoctorID == 0 || r.DoctorID == q.DoctorID) &&
  (q.PatientID == 0 || r.PatientID == q.PatientID) &&
  (q.DepartmentID == 0 || r.DepartmentID == q.DepartmentID) &&
  (q.Year == 0 || r.Year == q.Year) &&
  (q.Month == 0 || r.Month == q.Month) &&
  (q.Day == 0 || r.Day == q.Day) &&
  (q.HalfDay == "" || r.HalfDay == q.HalfDay) &&
  (q.Status == "" || r.Status == q.Status) &&
  (q.TerminatedCause == "" || r.TerminatedCause == q.TerminatedCause)

/-- gorm struct-condition semantics for `db.Where(&DepartmentSchedule{...})`. -/
def whereSched (q s : DepartmentSchedule) : Bool :=
  (q.ID == 0 || s.ID == q.ID) &&
  (q.DepartmentID == 0 || s.DepartmentID == q.DepartmentID) &&
  (q.Year == 0 || s.Year == q.Year) &&
  (q.Month == 0 || s.Month == q.Month) &&
  (q.Day == 0 || s.Day == q.Day) &&
  (q.HalfDay == "" || s.HalfDay == q.HalfDay) &&
  (q.Capacity == 0 || s.Capacity == q.Capacity) &&
  (q.Current == 0 || s.Current == q.Current)

/-- `db.First(&department, id)`. -/
def findDepartment (db : DB) (id : Nat) : Option Department :=
  db.departments.find? (fun d => d.ID == id)

/-- `db.Where("account_id = ?", callerID).First(&patient)`. -/
def findPatient (db : DB) (callerID : Nat) : Option Patient :=
  db.patients.find? (fun p => p.AccountID == callerID)

/-- The duplicate-check condition struct built in `CreateRegistration`
(lines 132-138): department, patient and slot identity set, all other
fields at their zero value. -/
def dupQueryOf (department : Department) (patient : Patient) (sub : Submit) :
    Registration :=
  { ID := 0, DoctorID := 0, PatientID := patient.ID,
    DepartmentID := department.ID, Year := sub.Year, Month := sub.Month,
    Day := sub.Day, HalfDay := sub.HalfDay, Status := "",
    TerminatedCause := "" }

/-- The schedule-lookup condition struct (lines 152-158). -/
def schedQueryOf (department : Department) (sub : Submit) :
    DepartmentSchedule :=
  { ID := 0, DepartmentID := department.ID, Year := sub.Year,
    Month := sub.Month, Day := sub.Day, HalfDay := sub.HalfDay,
    Capacity := 0, Current := 0 }

/-- The condition struct used inside the doctor-count loop (lines 175-181):
`registration` at that point carries only department and slot identity —
in particular it does **not** mention the doctor being counted. -/
def countQueryOf (department : Department) (sub : Submit) : Registration :=
  { ID := 0, DoctorID := 0, PatientID := 0,
    DepartmentID := department.ID, Year := sub.Year, Month := sub.Month,
    Day := sub.Day, HalfDay := sub.HalfDay, Status := "",
    TerminatedCause := "" }

/-- `math.MaxInt64`, the initial `minCount`. -/
def maxInt64 : Int := 9223372036854775807

/-- The minimum-search loop of `CreateRegistration` (lines 184-191):
arguments are the remaining counts, the index of the head, and the current
`(minCount, minIndex)` accumulator; the update fires only on a strict
decrease. -/
def scanMinAux : List Int → Int → Int × Int → Int × Int
  | [], _, acc => acc
  | c :: rest, i, (mc, mi) =>
      if mc > c then scanMinAux rest (i + 1) (c, i)
      else scanMinAux rest (i + 1) (mc, mi)

/-- The Go local `doctors` (line 171-172): all doctors of the department,
in store order. -/
def departmentDoctors (db : DB) (department : Department) : List Doctor :=
  db.doctors.filter (fun d => d.DepartmentID == department.ID)

/-- The Go local `doctorRegistrationCount` (lines 173, 185-186): one count
per doctor, each computed with `Where(&registration)` — a condition that
never names `doctors[i]`, so every entry is the same slot-wide count
(cf. C2). -/
def doctorCounts (db : DB) (department : Department) (sub : Submit) :
    List Int :=
  (departmentDoctors db department).map (fun _ =>
    ((db.registrations.filter
        (whereReg (countQueryOf department sub))).length : Int))

/-- The registration record the commit step of `CreateRegistration`
inserts (lines 175-181, 200-201): the submitted slot identity, the
assigned doctor, and gorm's column defaults (`committed` status, empty
cause). -/
def newRegOf (db : DB) (department : Department) (patient : Patient)
    (chosen : Doctor) (sub : Submit) : Registration :=
  { ID := db.nextRegID, DoctorID := chosen.ID, PatientID := patient.ID,
    DepartmentID := department.ID, Year := sub.Year, Month := sub.Month,
    Day := sub.Day, HalfDay := sub.HalfDay, Status := committed,
    TerminatedCause := "" }

/-- The store after a fully successful commit (lines 203-213):
registration appended by `db.Create`, and the found schedule row saved
back with occupancy incremented by one. -/
def commitDB (db : DB) (r : Registration) (schedule : DepartmentSchedule) :
    DB :=
  { db with
    registrations := db.registrations ++ [r],
    nextRegID := db.nextRegID + 1,
    schedules := db.schedules.map (fun s =>
      if s.ID == schedule.ID then { schedule with Current := schedule.Current + 1 }
      else s) }

/-- Modelled from the spec: `validateSchedule` is defined outside the
provided sources; the spec says it rejects schedules on past days.  The
admission engine is therefore parameterized by the validator's verdict
(`validSched`), which the embedding treats as an arbitrary predicate. -/
def createRegistration (validSched : DepartmentSchedule → Bool)
    (faults : StoreFaults) (db : DB) (callerID : Nat) (sub : Submit) :
    Except ProcessError Registration × DB :=
  -- `validate.Struct(submit)`: the halfday validator
  if ¬ isValidHalfDay sub.HalfDay then (.error .InvalidSubmitFormat, db) else
  match findDepartment db sub.DepartmentID with
  | none => (.error .DepartmentNotFound, db)
  | some department =>
  match findPatient db callerID with
  | none => (.error .PatientNotFound, db)
  | some patient =>
  -- duplicate check: any non-terminated registration for the tuple
  if (db.registrations.filter
      (whereReg (dupQueryOf department patient sub))).any
      (fun r => r.Status != terminated) then
    (.error .DuplicateRegistration, db)
  else
  -- registrationMutex.Lock(): admission is serialized; the embedding
  -- makes the whole admission one atomic step
  match db.schedules.find? (whereSched (schedQueryOf department sub)) with
  | none => (.error .InvalidSchedule, db)
  | some schedule =>
  if ¬ validSched schedule then (.error .InvalidSchedule, db) else
  if schedule.Current ≥ schedule.Capacity then (.error .NotEnoughCapacity, db)
  else
  -- find min count of registrations: minCount starts at math.MaxInt64,
  -- minIndex at -1
  if (scanMinAux (doctorCounts db department sub) 0 (maxInt64, -1)).2 == -1
  then (.error .CannotAssignDoctor, db) else
  match (departmentDoctors db department).get?
      (scanMinAux (doctorCounts db department sub) 0 (maxInt64, -1)).2.toNat with
  | none => (.error .CannotAssignDoctor, db) -- unreachable: minIndex indexes doctors
  | some chosen =>
  if faults.createFails then (.error .InvalidRegistration, db) else
  -- `db.Save(&schedule)` failing returns InvalidSchedule with the
  -- registration already created and no occupancy increment (cf. C3)
  if faults.saveFails then
    (.error .InvalidSchedule,
     { db with
       registrations := db.registrations ++
         [newRegOf db department patient chosen sub],
       nextRegID := db.nextRegID + 1 })
  else
    (.ok (newRegOf db department patient chosen sub),
     commitDB db (newRegOf db department patient chosen sub) schedule)

/-- `strconv.ParseUint(s, 10, 64)`: decimal digits only, no sign, value
must fit in 64 bits. -/
def parseUint64 (s : String) : Option Nat :=
  let cs := s.toList
  if cs ≠ [] ∧ cs.all Char.isDigit then
    let n := cs.foldl (fun a c => a * 10 + (c.toNat - 48)) 0
    if n < 2 ^ 64 then some n else none
  else none

/-- `strconv.Atoi` (64-bit platform): optional sign, decimal digits,
value must fit in `int64`. -/
def atoi (s : String) : Option Int :=
  let cs := s.toList
  let sgn : Bool × List Char :=
    match cs with
    | '-' :: rest => (true, rest)
    | '+' :: rest => (false, rest)
    | _ => (false, cs)
  if sgn.2 ≠ [] ∧ sgn.2.all Char.isDigit then
    let n : Nat := sgn.2.foldl (fun a c => a * 10 + (c.toNat - 48)) 0
    let v : Int := if sgn.1 then -(n : Int) else (n : Int)
    if -(2 ^ 63) ≤ v ∧ v ≤ 2 ^ 63 - 1 then some v else none
  else none

/-- `StrToUInt` (source lines 495-501): `strconv.Atoi`, any error becomes
0, otherwise the Go `uint(i)` conversion (wraps modulo 2^64). -/
def StrToUInt (s : String) : Nat :=
  match atoi s with
  | none => 0
  | some i => (i % (2 : Int) ^ 64).toNat

/-- `db.First(&mileStone, strKey)` with the error ignored: on a failed
lookup (or unparsable key) the record keeps its zero value. -/
def firstMileStoneByStr (db : DB) (s : String) : MileStone :=
  match parseUint64 s with
  | none => zeroMileStone
  | some n => (db.milestones.find? (fun m => m.ID == n)).getD zeroMileStone

/-- `db.First(&registrations, id)` with the error ignored. -/
def firstRegistrationByID (db : DB) (id : Nat) : Registration :=
  (db.registrations.find? (fun r => r.ID == id)).getD zeroRegistration

/-- `db.First(&registrations, strKey)` with the error ignored. -/
def firstRegistrationByStr (db : DB) (s : String) : Registration :=
  match parseUint64 s with
  | none => zeroRegistration
  | some n => firstRegistrationByID db n

/-- `DoctorAccessToMileStone` (lines 463-473): true iff the `DoctorID`
path parameter equals the assigned doctor of the milestone's parent
registration. -/
def DoctorAccessToMileStone (db : DB) (pMileStoneID pDoctorID : String) :
    Bool :=
  let mileStone := firstMileStoneByStr db pMileStoneID
  let registrations := firstRegistrationByID db mileStone.RegistrationID
  StrToUInt pDoctorID == registrations.DoctorID

/-- `DoctorAccessToRegistration` (lines 475-483). -/
def DoctorAccessToRegistration (db : DB) (pRegistrationID pDoctorID : String) :
    Bool :=
  let registrations := firstRegistrationByStr db pRegistrationID
  StrToUInt pDoctorID == registrations.DoctorID

/-- `PatientAccessToRegistration` (lines 485-493). -/
def PatientAccessToRegistration (db : DB) (pRegistrationID pPatientID : String) :
    Bool :=
  let registrations := firstRegistrationByStr db pRegistrationID
  StrToUInt pPatientID == registrations.PatientID

/-- `strconv.ParseBool`. -/
def parseBool (s : String) : Option Bool :=
  if s == "1" || s == "t" || s == "T" || s == "true" || s == "TRUE" || s == "True"
  then some true
  else if s == "0" || s == "f" || s == "F" || s == "false" || s == "FALSE" || s == "False"
  then some false
  else none

/-- `UpdateRegistrationStatus` (lines 363-389).  On success the returned
`Registration` is the handler's in-memory copy with the new status (and
cause); the handler never writes it back, so the returned `DB` is the
input store on every path. -/
def updateRegistrationStatus (db : DB)
    (qRegistrationID qStatus qTerminatedCause : String) :
    Except ProcessError Registration × DB :=
  match parseUint64 qRegistrationID with
  | none => (.error .ParseError, db)
  | some rid =>
  match db.registrations.find? (fun r => r.ID == rid) with
  | none => (.error .RecordNotFound, db)
  | some registration =>
  if qStatus == terminated then
    if qTerminatedCause != "" then
      (.ok { registration with Status := qStatus,
                               TerminatedCause := qTerminatedCause }, db)
    else (.error .MissingTerminatedCause, db)
  else (.ok { registration with Status := qStatus }, db)

/-- `UpdateMileStoneByDoctor` (lines 427-444).  The milestone is looked up
by the `mileStoneID` query parameter, `checked` is read from a path
parameter; the mutated record is only the in-memory copy (returned on
success) — it is never saved back, so the returned `DB` is the input
store on every path. -/
def updateMileStoneByDoctor (db : DB)
    (pMileStoneID pDoctorID pChecked qMileStoneID qActivity : String) :
    Except ProcessError MileStone × DB :=
  if DoctorAccessToMileStone db pMileStoneID pDoctorID then
    (.error .Unauthorized, db)
  else
    let milestone := firstMileStoneByStr db qMileStoneID
    match parseBool pChecked with
    | none => (.error .ParseError, db)
    | some checked =>
        (.ok { milestone with Checked := checked, Activity := qActivity }, db)

/-- `DeleteMileStoneByDoctor` (lines 454-461): `db.Delete(&MileStone{}, key)`
deletes by primary key (a no-op when the key does not parse). -/
def deleteMileStoneByDoctor (db : DB) (pMileStoneID pDoctorID : String) :
    Except ProcessError Unit × DB :=
  if DoctorAccessToMileStone db pMileStoneID pDoctorID then
    (.error .Unauthorized, db)
  else
    match parseUint64 pMileStoneID with
    | none => (.ok (), db)
    | some mid =>
        (.ok (), { db with milestones :=
                     db.milestones.filter (fun m => m.ID != mid) })

/-! ### Slot identities, invariants, and the step relation -/

/-- The slot identity of a registration: department, date and half-day. -/
def regSlotKey (r : Registration) : Nat × Int × Int × Int × String :=
  (r.DepartmentID, r.Year, r.Month, r.Day, r.HalfDay)

/-- The slot identity of a schedule row. -/
def schedSlotKey (s : DepartmentSchedule) : Nat × Int × Int × Int × String :=
  (s.DepartmentID, s.Year, s.Month, s.Day, s.HalfDay)

/-- Number of stored registrations (any status) for a slot identity. -/
def slotCount (regs : List Registration)
    (key : Nat × Int × Int × Int × String) : Nat :=
  (regs.filter (fun r => regSlotKey r == key)).length

/-- Number of stored non-terminated registrations for a slot identity. -/
def ntSlotCount (regs : List Registration)
    (key : Nat × Int × Int × Int × String) : Nat :=
  ((regs.filter (fun r => regSlotKey r == key)).filter
     (fun r => r.Status != terminated)).length

/-- Occupancy invariant: every slot's current occupancy is at most its
capacity. -/
abbrev occInv (db : DB) : Prop :=
  ∀ s ∈ db.schedules, s.Current ≤ s.Capacity

/-- Accounting invariant: the number of stored registrations for a slot is
at most the slot's recorded occupancy. -/
abbrev countInv (db : DB) : Prop :=
  ∀ s ∈ db.schedules, (slotCount db.registrations (schedSlotKey s) : Int) ≤ s.Current

/-- Store well-formedness: schedule rows have pairwise distinct primary
keys and pairwise distinct slot identities. -/
abbrev schedWF (db : DB) : Prop :=
  db.schedules.Pairwise (fun a b => a.ID ≠ b.ID) ∧
  db.schedules.Pairwise (fun a b => schedSlotKey a ≠ schedSlotKey b)

/-- One inbound request, as dispatched to one of the modelled handlers.
The per-slot serialization guard (the source's global `registrationMutex`)
makes each admission atomic, so a concurrent workload is modelled as an
arbitrary interleaving, i.e. an arbitrary sequence of steps. -/
inductive Step where
  | create (validSched : DepartmentSchedule → Bool) (faults : StoreFaults)
      (callerID : Nat) (sub : Submit)
  | updateStatus (qRegistrationID qStatus qTerminatedCause : String)
  | updateMileStone
      (pMileStoneID pDoctorID pChecked qMileStoneID qActivity : String)
  | deleteMileStone (pMileStoneID pDoctorID : String)

/-- Effect of one request on the durable store. -/
def applyStep (db : DB) : Step → DB
  | .create v f cid sub => (createRegistration v f db cid sub).2
  | .updateStatus a b c => (updateRegistrationStatus db a b c).2
  | .updateMileStone a b c d e => (updateMileStoneByDoctor db a b c d e).2
  | .deleteMileStone a b => (deleteMileStoneByDoctor db a b).2

/-- Run a sequence of requests against the store. -/
def run (db : DB) : List Step → DB
  | [] => db
  | st :: rest => run (applyStep db st) rest

/-- Side conditions for the booking-accounting invariant: the admission's
schedule save-back does not fail, and the submitted department and date
fields are nonzero (gorm drops zero-valued fields from struct
conditions, so a zero field would change which rows are matched). -/
abbrev StepOK : Step → Prop
  | .create _ f _ sub =>
      f.saveFails = false ∧ sub.DepartmentID ≠ 0 ∧ sub.Year ≠ 0 ∧
      sub.Month ≠ 0 ∧ sub.Day ≠ 0
  | _ => True

/-- The duplicate predicate of the spec: same patient, department, date
and period. -/
abbrev isDupOf (dept : Department) (patient : Patient) (sub : Submit)
    (r : Registration) : Prop :=
  r.PatientID = patient.ID ∧ r.DepartmentID = dept.ID ∧ r.Year = sub.Year ∧
  r.Month = sub.Month ∧ r.Day = sub.Day ∧ r.HalfDay = sub.HalfDay

/-- The hypotheses under which an admission request reaches the
duplicate check: the period is valid, the department and the caller's
patient record exist, and the queried fields are nonzero (gorm drops
zero-valued fields from struct conditions). -/
abbrev AdmitSetup (db : DB) (callerID : Nat) (sub : Submit)
    (dept : Department) (patient : Patient) : Prop :=
  isValidHalfDay sub.HalfDay = true ∧
  findDepartment db sub.DepartmentID = some dept ∧
  findPatient db callerID = some patient ∧
  sub.DepartmentID ≠ 0 ∧ sub.Year ≠ 0 ∧ sub.Month ≠ 0 ∧ sub.Day ≠ 0 ∧
  patient.ID ≠ 0

/-- Follows the spec's words (Assignment Policy, §4.2): a provider's load
is the number of its own non-terminated bookings scoped to the same slot
identity.  Used only to compare the code's selection against the spec's
selection rule. -/
def specProviderLoad (regs : List Registration) (doctorID : Nat)
    (key : Nat × Int × Int × Int × String) : Nat :=
  (regs.filter (fun r =>
      r.DoctorID == doctorID && regSlotKey r == key &&
      r.Status != terminated)).length

/-- The stored status of the registration with the given primary key. -/
def getRegStatus (db : DB) (id : Nat) : Option String :=
  (db.registrations.find? (fun r => r.ID == id)).map Registration.Status

/-! ### Concrete stores and requests for witnesses and counterexamples -/

/-- A schedule validator that accepts everything (all dates in the
future). -/
def allValid : DepartmentSchedule → Bool := fun _ => true

/-- Both store writes succeed. -/
def noFaults : StoreFaults := ⟨false, false⟩

/-- The schedule save-back (`db.Save(&schedule)`) fails. -/
def saveFault : StoreFaults := ⟨false, true⟩

/-- A concrete admission request: department 1, 2024-05-01, morning. -/
def exSubmit : Submit :=
  { DepartmentID := 1, Year := 2024, Month := 5, Day := 1, HalfDay := "morning" }

/-- The slot key of `exSubmit`. -/
def exKey : Nat × Int × Int × Int × String := (1, 2024, 5, 1, "morning")

/-- Base store: department 1, two patients, one doctor, an empty slot of
capacity 1. -/
def exDB : DB :=
  { departments := [{ ID := 1, Name := "d" }],
    patients := [{ ID := 1, AccountID := 1 }, { ID := 2, AccountID := 2 }],
    doctors := [{ ID := 1, AccountID := 11, DepartmentID := 1 }],
    registrations := [],
    schedules := [{ ID := 1, DepartmentID := 1, Year := 2024, Month := 5,
                    Day := 1, HalfDay := "morning", Capacity := 1, Current := 0 }],
    milestones := [],
    nextRegID := 1 }

/-- Store for the assignment scenario: doctor 1 already has one active
booking for the slot, doctor 2 has none. -/
def exDB2 : DB :=
  { departments := [{ ID := 1, Name := "d" }],
    patients := [{ ID := 2, AccountID := 2 }, { ID := 9, AccountID := 9 }],
    doctors := [{ ID := 1, AccountID := 11, DepartmentID := 1 },
                { ID := 2, AccountID := 12, DepartmentID := 1 }],
    registrations := [{ ID := 1, DoctorID := 1, PatientID := 9,
                        DepartmentID := 1, Year := 2024, Month := 5, Day := 1,
                        HalfDay := "morning", Status := "committed",
                        TerminatedCause := "" }],
    schedules := [{ ID := 1, DepartmentID := 1, Year := 2024, Month := 5,
                    Day := 1, HalfDay := "morning", Capacity := 5, Current := 1 }],
    milestones := [],
    nextRegID := 2 }

/-- Store for the milestone scenarios: milestone 1 belongs to registration
1, which is assigned to doctor 1. -/
def exDB4 : DB :=
  { departments := [], patients := [], doctors := [],
    registrations := [{ ID := 1, DoctorID := 1, PatientID := 1,
                        DepartmentID := 1, Year := 2024, Month := 5, Day := 1,
                        HalfDay := "morning", Status := "committed",
                        TerminatedCause := "" }],
    schedules := [],
    milestones := [{ ID := 1, RegistrationID := 1, Activity := "a",
                     Checked := false }],
    nextRegID := 2 }

/-- Store with a non-terminated duplicate for patient 1 on the exSubmit
slot, and the slot full (occupancy = capacity = 1). -/
def exDB7 : DB :=
  { departments := [{ ID := 1, Name := "d" }],
    patients := [{ ID := 1, AccountID := 1 }],
    doctors := [{ ID := 1, AccountID := 11, DepartmentID := 1 }],
    registrations := [{ ID := 1, DoctorID := 1, PatientID := 1,
                        DepartmentID := 1, Year := 2024, Month := 5, Day := 1,
                        HalfDay := "morning", Status := "committed",
                        TerminatedCause := "" }],
    schedules := [{ ID := 1, DepartmentID := 1, Year := 2024, Month := 5,
                    Day := 1, HalfDay := "morning", Capacity := 1, Current := 1 }],
    milestones := [],
    nextRegID := 2 }

/-- Like `exDB7` but the existing duplicate is terminated. -/
def exDB6 : DB :=
  { departments := [{ ID := 1, Name := "d" }],
    patients := [{ ID := 1, AccountID := 1 }],
    doctors := [{ ID := 1, AccountID := 11, DepartmentID := 1 }],
    registrations := [{ ID := 1, DoctorID := 1, PatientID := 1,
                        DepartmentID := 1, Year := 2024, Month := 5, Day := 1,
                        HalfDay := "morning", Status := "terminated",
                        TerminatedCause := "done" }],
    schedules := [{ ID := 1, DepartmentID := 1, Year := 2024, Month := 5,
                    Day := 1, HalfDay := "morning", Capacity := 2, Current := 1 }],
    milestones := [],
    nextRegID := 2 }

/-- A full slot (occupancy = capacity = 1) with no stored registrations
at all, so no duplicate can interfere. -/
def exDB7b : DB :=
  { departments := [{ ID := 1, Name := "d" }],
    patients := [{ ID := 1, AccountID := 1 }],
    doctors := [{ ID := 1, AccountID := 11, DepartmentID := 1 }],
    registrations := [],
    schedules := [{ ID := 1, DepartmentID := 1, Year := 2024, Month := 5,
                    Day := 1, HalfDay := "morning", Capacity := 1, Current := 1 }],
    milestones := [],
    nextRegID := 1 }

/-- The schedule row of `exDB7b`. -/
def exSched7b : DepartmentSchedule :=
  { ID := 1, DepartmentID := 1, Year := 2024, Month := 5, Day := 1,
    HalfDay := "morning", Capacity := 1, Current := 1 }

/-- Store holding one terminated registration. -/
def exDB8 : DB :=
  { departments := [], patients := [], doctors := [],
    registrations := [{ ID := 1, DoctorID := 1, PatientID := 1,
                        DepartmentID := 1, Year := 2024, Month := 5, Day := 1,
                        HalfDay := "morning", Status := "terminated",
                        TerminatedCause := "healed" }],
    schedules := [], milestones := [], nextRegID := 2 }

/-- Two admission attempts on the capacity-1 slot of `exDB`: patient 1's
attempt suffers a schedule save-back fault, patient 2's attempt succeeds. -/
def exSteps : List Step :=
  [Step.create allValid saveFault 1 exSubmit,
   Step.create allValid noFaults 2 exSubmit]

/-- A single fault-free admission attempt on `exDB`. -/
def exStepsOK : List Step := [Step.create allValid noFaults 1 exSubmit]

/-! ### Frame lemmas for the non-admission handlers -/

theorem updateRegistrationStatus_snd_eq (db : DB) (a b c : String) :
    (updateRegistrationStatus db a b c).2 = db := by
  unfold updateRegistrationStatus
  split
  · rfl
  split
  · rfl
  split
  · split <;> rfl
  · rfl

theorem updateMileStoneByDoctor_snd_eq (db : DB) (a b c d e : String) :
    (updateMileStoneByDoctor db a b c d e).2 = db := by
  unfold updateMileStoneByDoctor
  split
  · rfl
  · split <;> rfl

theorem deleteMileStoneByDoctor_frame (db : DB) (a b : String) :
    (deleteMileStoneByDoctor db a b).2.schedules = db.schedules ∧
    (deleteMileStoneByDoctor db a b).2.registrations = db.registrations := by
  unfold deleteMileStoneByDoctor
  split
  · exact ⟨rfl, rfl⟩
  · split <;> exact ⟨rfl, rfl⟩

/-! ### Characterizations of the gorm struct queries -/

theorem ne_empty_of_isValidHalfDay {h : String}
    (hv : isValidHalfDay h = true) : h ≠ "" := by
  intro he
  subst he
  exact absurd hv (by decide)

theorem findDepartment_id {db : DB} {n : Nat} {d : Department}
    (h : findDepartment db n = some d) : d.ID = n := by
  have := List.find?_some h
  simpa using this

theorem whereReg_dupQueryOf_iff (dept : Department) (patient : Patient)
    (sub : Submit) (hP : patient.ID ≠ 0) (hDept : dept.ID ≠ 0)
    (hY : sub.Year ≠ 0) (hM : sub.Month ≠ 0) (hD : sub.Day ≠ 0)
    (hH : sub.HalfDay ≠ "") (r : Registration) :
    whereReg (dupQueryOf dept patient sub) r = true ↔
      isDupOf dept patient sub r := by
  simp only [whereReg, dupQueryOf, isDupOf, Bool.and_eq_true, Bool.or_eq_true,
    beq_iff_eq]
  simp [hP, hDept, hY, hM, hD, hH, and_assoc]

theorem whereReg_countQueryOf_iff (dept : Department) (sub : Submit)
    (hDept : dept.ID ≠ 0) (hY : sub.Year ≠ 0) (hM : sub.Month ≠ 0)
    (hD : sub.Day ≠ 0) (hH : sub.HalfDay ≠ "") (r : Registration) :
    whereReg (countQueryOf dept sub) r = true ↔
      regSlotKey r = (dept.ID, sub.Year, sub.Month, sub.Day, sub.HalfDay) := by
  simp only [whereReg, countQueryOf, regSlotKey, Bool.and_eq_true,
    Bool.or_eq_true, beq_iff_eq, Prod.mk.injEq]
  simp [hDept, hY, hM, hD, hH, and_assoc]

theorem whereSched_schedQueryOf_iff (dept : Department) (sub : Submit)
    (hDept : dept.ID ≠ 0) (hY : sub.Year ≠ 0) (hM : sub.Month ≠ 0)
    (hD : sub.Day ≠ 0) (hH : sub.HalfDay ≠ "") (s : DepartmentSchedule) :
    whereSched (schedQueryOf dept sub) s = true ↔
      schedSlotKey s = (dept.ID, sub.Year, sub.Month, sub.Day, sub.HalfDay) := by
  simp only [whereSched, schedQueryOf, schedSlotKey, Bool.and_eq_true,
    Bool.or_eq_true, beq_iff_eq, Prod.mk.injEq]
  simp [hDept, hY, hM, hD, hH, and_assoc]

theorem dup_any_iff (db : DB) (dept : Department) (patient : Patient)
    (sub : Submit) (hP : patient.ID ≠ 0) (hDept : dept.ID ≠ 0)
    (hY : sub.Year ≠ 0) (hM : sub.Month ≠ 0) (hD : sub.Day ≠ 0)
    (hH : sub.HalfDay ≠ "") :
    ((db.registrations.filter (whereReg (dupQueryOf dept patient sub))).any
        (fun r => r.Status != terminated) = true) ↔
      ∃ r ∈ db.registrations, isDupOf dept patient sub r ∧
        r.Status ≠ terminated := by
  simp only [List.any_eq_true, List.mem_filter, bne_iff_ne,
    whereReg_dupQueryOf_iff dept patient sub hP hDept hY hM hD hH]
  tauto

/-! ### Shape of the store after an admission attempt -/

theorem createRegistration_snd_spec (v : DepartmentSchedule → Bool)
    (f : StoreFaults) (db : DB) (cid : Nat) (sub : Submit)
    (res : Except ProcessError Registration × DB)
    (hres : createRegistration v f db cid sub = res) :
    res.2 = db ∨
    (isValidHalfDay sub.HalfDay = true ∧
     ∃ dept patient chosen,
       findDepartment db sub.DepartmentID = some dept ∧
       findPatient db cid = some patient ∧
       ((f.saveFails = true ∧
         res.2 =
           { db with
             registrations := db.registrations ++
               [newRegOf db dept patient chosen sub],
             nextRegID := db.nextRegID + 1 }) ∨
        ∃ sched,
          db.schedules.find? (whereSched (schedQueryOf dept sub)) =
            some sched ∧
          sched.Current < sched.Capacity ∧
          res.2 = commitDB db (newRegOf db dept patient chosen sub) sched)) := by
  unfold createRegistration at hres
  split at hres
  · subst hres; left; rfl
  rename_i hhd
  split at hres
  · subst hres; left; rfl
  rename_i dept hdep
  split at hres
  · subst hres; left; rfl
  rename_i patient hpat
  split at hres
  · subst hres; left; rfl
  split at hres
  · subst hres; left; rfl
  rename_i sched hsched
  split at hres
  · subst hres; left; rfl
  split at hres
  · subst hres; left; rfl
  rename_i hcap
  split at hres
  · subst hres; left; rfl
  split at hres
  · subst hres; left; rfl
  rename_i chosen hchosen
  split at hres
  · subst hres; left; rfl
  split at hres
  · rename_i hsave
    subst hres
    right
    exact ⟨not_not.mp hhd, dept, patient, chosen, hdep, hpat,
      Or.inl ⟨hsave, rfl⟩⟩
  · subst hres
    right
    exact ⟨not_not.mp hhd, dept, patient, chosen, hdep, hpat,
      Or.inr ⟨sched, hsched, lt_of_not_ge hcap, rfl⟩⟩

/-! ### Invariant preservation -/

theorem eq_of_pairwise_key {α β : Type} (f : α → β) {l : List α}
    (hpw : l.Pairwise (fun a b => f a ≠ f b)) {a b : α}
    (ha : a ∈ l) (hb : b ∈ l) (h : f a = f b) : a = b := by
  induction l with
  | nil => cases ha
  | cons x xs ih =>
    obtain ⟨hx, hxs⟩ := List.pairwise_cons.mp hpw
    rcases List.mem_cons.mp ha with rfl | ha'
    · rcases List.mem_cons.mp hb with rfl | hb'
      · rfl
      · exact absurd h (hx b hb')
    · rcases List.mem_cons.mp hb with rfl | hb'
      · exact absurd h.symm (hx a ha')
      · exact ih hxs ha' hb'

theorem slotCount_append (l₁ l₂ : List Registration)
    (key : Nat × Int × Int × Int × String) :
    slotCount (l₁ ++ l₂) key = slotCount l₁ key + slotCount l₂ key := by
  simp [slotCount, List.filter_append]

theorem slotCount_single (r : Registration)
    (key : Nat × Int × Int × Int × String) :
    slotCount [r] key = if regSlotKey r == key then 1 else 0 := by
  by_cases h : regSlotKey r == key <;> simp [slotCount, List.filter, h]

theorem ntSlotCount_le_slotCount (regs : List Registration)
    (key : Nat × Int × Int × Int × String) :
    ntSlotCount regs key ≤ slotCount regs key :=
  List.length_filter_le _ _

theorem commitDB_schedule_id_map (schedule : DepartmentSchedule)
    (s : DepartmentSchedule) :
    (if s.ID == schedule.ID then
        { schedule with Current := schedule.Current + 1 } else s).ID = s.ID := by
  by_cases h : s.ID == schedule.ID
  · simp only [h, if_true]
    exact (beq_iff_eq.mp h).symm
  · simp [h]

theorem commitDB_schedWF {db : DB} {r : Registration}
    {schedule : DepartmentSchedule} (hmem : schedule ∈ db.schedules)
    (hwf : schedWF db) : schedWF (commitDB db r schedule) := by
  obtain ⟨hid, hkey⟩ := hwf
  have hpres : ∀ s ∈ db.schedules,
      (if s.ID == schedule.ID then
          { schedule with Current := schedule.Current + 1 } else s) = s ∨
      s = schedule := by
    intro s hs
    by_cases h : s.ID == schedule.ID
    · exact Or.inr (eq_of_pairwise_key (fun x => x.ID) hid hs hmem
        (beq_iff_eq.mp h))
    · simp [h]
  constructor
  · rw [commitDB]
    simp only [List.pairwise_map]
    refine hid.imp ?_
    intro a b hab
    rw [commitDB_schedule_id_map, commitDB_schedule_id_map]
    exact hab
  · rw [commitDB]
    simp only [List.pairwise_map]
    refine List.Pairwise.imp_of_mem ?_ hkey
    intro a b ha hb hab
    have hka : schedSlotKey
        (if a.ID == schedule.ID then
            { schedule with Current := schedule.Current + 1 } else a) =
        schedSlotKey a := by
      rcases hpres a ha with h | h
      · rw [h]
      · subst h
        simp [schedSlotKey]
    have hkb : schedSlotKey
        (if b.ID == schedule.ID then
            { schedule with Current := schedule.Current + 1 } else b) =
        schedSlotKey b := by
      rcases hpres b hb with h | h
      · rw [h]
      · subst h
        simp [schedSlotKey]
    rw [hka, hkb]
    exact hab

theorem createRegistration_occInv (v : DepartmentSchedule → Bool)
    (f : StoreFaults) (db : DB) (cid : Nat) (sub : Submit)
    (h : occInv db) : occInv (createRegistration v f db cid sub).2 := by
  rcases createRegistration_snd_spec v f db cid sub _ rfl with
    heq | ⟨_, dept, patient, chosen, _, _,
           ⟨_, heq⟩ | ⟨sched, hsched, hcap, heq⟩⟩
  · rw [heq]; exact h
  · rw [heq]; exact h
  · rw [heq]
    intro s' hs'
    simp only [commitDB, List.mem_map] at hs'
    obtain ⟨s, hs, rfl⟩ := hs'
    by_cases hc : s.ID == sched.ID
    · simp only [hc, if_true]
      show sched.Current + 1 ≤ sched.Capacity
      omega
    · simp only [hc, if_false]
      exact h s hs

theorem createRegistration_inv (v : DepartmentSchedule → Bool)
    (f : StoreFaults) (db : DB) (cid : Nat) (sub : Submit)
    (hsf : f.saveFails = false) (hD0 : sub.DepartmentID ≠ 0)
    (hY : sub.Year ≠ 0) (hM : sub.Month ≠ 0) (hD : sub.Day ≠ 0)
    (hwf : schedWF db) (hcnt : countInv db) :
    schedWF (createRegistration v f db cid sub).2 ∧
    countInv (createRegistration v f db cid sub).2 := by
  rcases createRegistration_snd_spec v f db cid sub _ rfl with
    heq | ⟨hhd, dept, patient, chosen, hdep, hpat,
           ⟨hsave, _⟩ | ⟨sched, hsched, hcap, heq⟩⟩
  · rw [heq]; exact ⟨hwf, hcnt⟩
  · rw [hsf] at hsave; cases hsave
  · have hmem : sched ∈ db.schedules := List.mem_of_find?_eq_some hsched
    have hDept : dept.ID ≠ 0 := by rw [findDepartment_id hdep]; exact hD0
    have hH : sub.HalfDay ≠ "" := ne_empty_of_isValidHalfDay hhd
    have hkey : schedSlotKey sched =
        (dept.ID, sub.Year, sub.Month, sub.Day, sub.HalfDay) :=
      (whereSched_schedQueryOf_iff dept sub hDept hY hM hD hH sched).mp
        (List.find?_some hsched)
    have hkNew : regSlotKey (newRegOf db dept patient chosen sub) =
        (dept.ID, sub.Year, sub.Month, sub.Day, sub.HalfDay) := rfl
    rw [heq]
    refine ⟨commitDB_schedWF hmem hwf, ?_⟩
    intro s' hs'
    simp only [commitDB, List.mem_map] at hs'
    obtain ⟨s, hs, rfl⟩ := hs'
    by_cases hc : s.ID == sched.ID
    · simp only [hc, if_true]
      show (slotCount (db.registrations ++ [newRegOf db dept patient chosen sub])
          (schedSlotKey sched) : Int) ≤ sched.Current + 1
      rw [slotCount_append, slotCount_single, hkNew, hkey]
      have hbase := hcnt sched hmem
      rw [hkey] at hbase
      simp only [beq_self_eq_true, if_true]
      push_cast
      omega
    · simp only [hc, if_false]
      show (slotCount (db.registrations ++ [newRegOf db dept patient chosen sub])
          (schedSlotKey s) : Int) ≤ s.Current
      rw [slotCount_append, slotCount_single]
      have hne : (regSlotKey (newRegOf db dept patient chosen sub) ==
          schedSlotKey s) = false := by
        apply beq_eq_false_iff_ne.mpr
        rw [hkNew]
        intro hEq
        have hss : s = sched :=
          eq_of_pairwise_key schedSlotKey hwf.2 hs hmem (hEq.symm.trans hkey.symm)
        rw [hss] at hc
        simp at hc
      rw [hne]
      simp only [Bool.false_eq_true, if_false]
      have hbase := hcnt s hs
      push_cast
      omega

theorem applyStep_occInv (db : DB) (st : Step) (h : occInv db) :
    occInv (applyStep db st) := by
  cases st with
  | create v f cid sub => exact createRegistration_occInv v f db cid sub h
  | updateStatus a b c =>
      show occInv (updateRegistrationStatus db a b c).2
      rw [updateRegistrationStatus_snd_eq]
      exact h
  | updateMileStone a b c d e =>
      show occInv (updateMileStoneByDoctor db a b c d e).2
      rw [updateMileStoneByDoctor_snd_eq]
      exact h
  | deleteMileStone a b =>
      intro s hs
      rw [show (applyStep db (Step.deleteMileStone a b)).schedules =
          db.schedules from (deleteMileStoneByDoctor_frame db a b).1] at hs
      exact h s hs

theorem applyStep_inv (db : DB) (st : Step) (hok : StepOK st)
    (hwf : schedWF db) (hcnt : countInv db) :
    schedWF (applyStep db st) ∧ countInv (applyStep db st) := by
  cases st with
  | create v f cid sub =>
      obtain ⟨hsf, hD0, hY, hM, hD⟩ := hok
      exact createRegistration_inv v f db cid sub hsf hD0 hY hM hD hwf hcnt
  | updateStatus a b c =>
      show schedWF (updateRegistrationStatus db a b c).2 ∧
        countInv (updateRegistrationStatus db a b c).2
      rw [updateRegistrationStatus_snd_eq]
      exact ⟨hwf, hcnt⟩
  | updateMileStone a b c d e =>
      show schedWF (updateMileStoneByDoctor db a b c d e).2 ∧
        countInv (updateMileStoneByDoctor db a b c d e).2
      rw [updateMileStoneByDoctor_snd_eq]
      exact ⟨hwf, hcnt⟩
  | deleteMileStone a b =>
      obtain ⟨h1, h2⟩ := deleteMileStoneByDoctor_frame db a b
      constructor
      · unfold schedWF at hwf ⊢
        rw [show (applyStep db (Step.deleteMileStone a b)).schedules =
            db.schedules from h1]
        exact hwf
      · intro s hs
        rw [show (applyStep db (Step.deleteMileStone a b)).schedules =
            db.schedules from h1] at hs
        rw [show (applyStep db (Step.deleteMileStone a b)).registrations =
            db.registrations from h2]
        exact hcnt s hs

theorem run_occInv (steps : List Step) : ∀ db : DB,
    occInv db → occInv (run db steps) := by
  induction steps with
  | nil => exact fun _ h => h
  | cons st rest ih =>
      intro db h
      exact ih _ (applyStep_occInv db st h)

theorem run_inv (steps : List Step) : ∀ db : DB,
    (∀ st ∈ steps, StepOK st) → schedWF db → countInv db →
    schedWF (run db steps) ∧ countInv (run db steps) := by
  induction steps with
  | nil => exact fun _ _ hwf hcnt => ⟨hwf, hcnt⟩
  | cons st rest ih =>
      intro db hok hwf hcnt
      obtain ⟨hwf', hcnt'⟩ :=
        applyStep_inv db st (hok st (by simp)) hwf hcnt
      exact ih _ (fun s hs => hok s (by simp [hs])) hwf' hcnt'

/-- Counterexample to C1 as stated: starting from `exDB` (a well-formed
store whose only slot has capacity 1 and occupancy 0), the request
sequence `exSteps` — patient 1's admission suffers a failing schedule
save-back after its booking insert succeeded, then patient 2's admission
succeeds — leaves the slot with two successfully created non-terminated
bookings, exceeding its capacity. -/
theorem c1_counterexample_bookings_exceed_capacity :
    occInv exDB ∧ schedWF exDB ∧ countInv exDB ∧
    ¬ (∀ s ∈ (run exDB exSteps).schedules,
        (ntSlotCount (run exDB exSteps).registrations (schedSlotKey s) : Int) ≤
          s.Capacity) := by decide

/-- C1 (amended): over any sequence of requests, slot occupancy never
exceeds capacity (even when store writes fail); and — provided the initial
store is well-formed with consistent booking accounting and every
admission step has a non-failing schedule save-back and nonzero
department/date fields — the number of stored non-terminated bookings per
slot never exceeds the slot's capacity.  Occupancy is mutated only by the
admission step (`Step.create`); the serialization guard is reflected in
steps being atomic. -/
theorem c1_occupancy_never_exceeds_capacity (db : DB) (steps : List Step)
    (hocc : occInv db) :
    occInv (run db steps) ∧
    (schedWF db → countInv db → (∀ st ∈ steps, StepOK st) →
      ∀ s ∈ (run db steps).schedules,
        (ntSlotCount (run db steps).registrations (schedSlotKey s) : Int) ≤
          s.Capacity) := by
  refine ⟨run_occInv steps db hocc, ?_⟩
  intro hwf hcnt hok s hs
  obtain ⟨hwf', hcnt'⟩ := run_inv steps db hok hwf hcnt
  have h1 : ntSlotCount (run db steps).registrations (schedSlotKey s) ≤
      slotCount (run db steps).registrations (schedSlotKey s) :=
    ntSlotCount_le_slotCount _ _
  have h2 := hcnt' s hs
  have h3 := run_occInv steps db hocc s hs
  omega

/-- Witness for C1 (amended) at `exDB` and one fault-free admission. -/
theorem c1_occupancy_never_exceeds_capacity_witness :
    occInv (run exDB exStepsOK) ∧
    ∀ s ∈ (run exDB exStepsOK).schedules,
      (ntSlotCount (run exDB exStepsOK).registrations (schedSlotKey s) : Int) ≤
        s.Capacity := by
  have h := c1_occupancy_never_exceeds_capacity exDB exStepsOK (by decide)
  refine ⟨h.1, h.2 (by decide) (by decide) ?_⟩
  intro st hst
  simp only [exStepsOK, List.mem_singleton] at hst
  subst hst
  exact ⟨rfl, by decide, by decide, by decide, by decide⟩

/-- C9: every call to `UpdateMileStoneByDoctor`, on every outcome
(including the success response), leaves the durable store unchanged: the
handler mutates only an in-memory copy and never writes it back, so the
stored activity and checked flag after the call equal their values before
it. -/
theorem c9_update_milestone_never_persists (db : DB)
    (pMileStoneID pDoctorID pChecked qMileStoneID qActivity : String) :
    (updateMileStoneByDoctor db pMileStoneID pDoctorID pChecked
       qMileStoneID qActivity).2 = db :=
  updateMileStoneByDoctor_snd_eq db pMileStoneID pDoctorID pChecked
    qMileStoneID qActivity

/-- C8: a booking whose stored status is `terminated` keeps that stored
status across any `UpdateRegistrationStatus` call (the handler persists no
status change at all, so in particular no transition out of `terminated`
ever reaches the store). -/
theorem c8_no_exit_from_terminated (db : DB)
    (qRegistrationID qStatus qTerminatedCause : String) (id : Nat)
    (h : getRegStatus db id = some terminated) :
    getRegStatus
      ((updateRegistrationStatus db qRegistrationID qStatus qTerminatedCause).2)
      id = some terminated := by
  rw [updateRegistrationStatus_snd_eq]
  exact h

/-- Witness for C8: registration 1 of `exDB8` is terminated and stays
terminated across an update request that asks for status `committed`. -/
theorem c8_no_exit_from_terminated_witness :
    getRegStatus ((updateRegistrationStatus exDB8 "1" "committed" "").2) 1 =
      some terminated :=
  c8_no_exit_from_terminated exDB8 "1" "committed" "" 1 (by decide)

/-- C5 (code bug): with a non-empty cause the handler reports success and
builds the terminated record in memory, but never saves it: the stored
status remains `committed` and no cause is stored.  The empty-cause half
behaves as claimed (MissingTerminatedCause error, store unchanged). -/
theorem c5_termination_never_persisted :
    updateRegistrationStatus exDB4 "1" "terminated" "" =
      (Except.error ProcessError.MissingTerminatedCause, exDB4) ∧
    (updateRegistrationStatus exDB4 "1" "terminated" "patient healed").1 =
      Except.ok { ID := 1, DoctorID := 1, PatientID := 1, DepartmentID := 1,
                  Year := 2024, Month := 5, Day := 1, HalfDay := "morning",
                  Status := "terminated", TerminatedCause := "patient healed" } ∧
    (updateRegistrationStatus exDB4 "1" "terminated" "patient healed").2 =
      exDB4 ∧
    getRegStatus
      ((updateRegistrationStatus exDB4 "1" "terminated" "patient healed").2)
      1 = some committed := by decide

/-- C4 (code bug): the authorization condition is inverted.  Milestone 1
of `exDB4` belongs to the booking assigned to doctor 1: an update or
delete by doctor 2 is let through (the delete even removes the milestone),
while doctor 1 — the assigned provider — is rejected as unauthorized. -/
theorem c4_authorization_inverted :
    DoctorAccessToMileStone exDB4 "1" "2" = false ∧
    (updateMileStoneByDoctor exDB4 "1" "2" "true" "1" "x").1 =
      Except.ok { ID := 1, RegistrationID := 1, Activity := "x", Checked := true } ∧
    (updateMileStoneByDoctor exDB4 "1" "1" "true" "1" "x").1 =
      Except.error ProcessError.Unauthorized ∧
    (deleteMileStoneByDoctor exDB4 "1" "2").2.milestones = [] ∧
    deleteMileStoneByDoctor exDB4 "1" "1" =
      (Except.error ProcessError.Unauthorized, exDB4) := by decide

/-- C2 (code bug): in `exDB2` doctor 1 already has one active booking for
the slot and doctor 2 has none, yet the admission assigns doctor 1: the
count query never names the doctor being counted, so every doctor gets
the same count and the first enumerated doctor always wins. -/
theorem c2_assignment_ignores_doctor_load :
    (createRegistration allValid noFaults exDB2 2 exSubmit).1 =
      Except.ok { ID := 2, DoctorID := 1, PatientID := 2, DepartmentID := 1,
                  Year := 2024, Month := 5, Day := 1, HalfDay := "morning",
                  Status := "committed", TerminatedCause := "" } ∧
    specProviderLoad exDB2.registrations 1 exKey = 1 ∧
    specProviderLoad exDB2.registrations 2 exKey = 0 := by decide

/-- C3 (code bug): when the schedule save-back fails after the booking
insert succeeded, the admission returns an error yet the booking stays
created while the occupancy increment is lost. -/
theorem c3_error_path_partial_commit :
    (createRegistration allValid saveFault exDB 1 exSubmit).1 =
      Except.error ProcessError.InvalidSchedule ∧
    (createRegistration allValid saveFault exDB 1 exSubmit).2.registrations =
      [{ ID := 1, DoctorID := 1, PatientID := 1, DepartmentID := 1,
         Year := 2024, Month := 5, Day := 1, HalfDay := "morning",
         Status := "committed", TerminatedCause := "" }] ∧
    exDB.registrations = [] ∧
    (createRegistration allValid saveFault exDB 1 exSubmit).2.schedules =
      exDB.schedules := by decide

/-- C10: a string that `strconv.Atoi` rejects makes `StrToUInt` return 0,
so each authorization helper treats a malformed or missing ID path
parameter exactly as a caller with ID 0. -/
theorem c10_malformed_id_means_zero (s : String) (h : atoi s = none)
    (db : DB) (pm pr : String) :
    StrToUInt s = 0 ∧
    DoctorAccessToMileStone db pm s = DoctorAccessToMileStone db pm "0" ∧
    DoctorAccessToRegistration db pr s = DoctorAccessToRegistration db pr "0" ∧
    PatientAccessToRegistration db pr s = PatientAccessToRegistration db pr "0" := by
  have h0 : StrToUInt s = 0 := by unfold StrToUInt; rw [h]
  have h1 : StrToUInt "0" = 0 := by decide
  refine ⟨h0, ?_, ?_, ?_⟩ <;>
    simp only [DoctorAccessToMileStone, DoctorAccessToRegistration,
      PatientAccessToRegistration, h0, h1]

/-- C6: if some stored booking for the (patient, department, date, period)
tuple is non-terminated, the admission fails with `DuplicateRegistration`
and the store is unchanged; if every stored booking for the tuple is
terminated, the attempt never fails with `DuplicateRegistration`. -/
theorem c6_duplicate_check (v : DepartmentSchedule → Bool) (f : StoreFaults)
    (db : DB) (callerID : Nat) (sub : Submit) (dept : Department)
    (patient : Patient) (hsetup : AdmitSetup db callerID sub dept patient) :
    ((∃ r ∈ db.registrations, isDupOf dept patient sub r ∧
        r.Status ≠ terminated) →
      createRegistration v f db callerID sub =
        (.error .DuplicateRegistration, db)) ∧
    ((∀ r ∈ db.registrations, isDupOf dept patient sub r →
        r.Status = terminated) →
      (createRegistration v f db callerID sub).1 ≠
        .error .DuplicateRegistration) := by
  obtain ⟨hhd, hdep, hpat, hD0, hY, hM, hD, hP⟩ := hsetup
  have hDept : dept.ID ≠ 0 := by rw [findDepartment_id hdep]; exact hD0
  have hH : sub.HalfDay ≠ "" := ne_empty_of_isValidHalfDay hhd
  have hany := dup_any_iff db dept patient sub hP hDept hY hM hD hH
  constructor
  · intro hex
    have ha : (db.registrations.filter
        (whereReg (dupQueryOf dept patient sub))).any
          (fun r => r.Status != terminated) = true := hany.mpr hex
    simp only [createRegistration, hhd, hdep, hpat, ha]
    simp
  · intro hall
    have ha : (db.registrations.filter
        (whereReg (dupQueryOf dept patient sub))).any
          (fun r => r.Status != terminated) = false := by
      rw [Bool.eq_false_iff]
      intro h
      obtain ⟨r, hr, hd, hs⟩ := hany.mp h
      exact hs (hall r hr hd)
    simp only [createRegistration, hhd, hdep, hpat, ha]
    rw [if_neg (by simp), if_neg (by simp)]
    split
    · simp
    split
    · simp
    split
    · simp
    split
    · simp
    split
    · simp
    split
    · simp
    split
    · simp
    · simp

/-- Witness for C6 at `exDB6`: the only stored booking for the tuple is
terminated, so the duplicate check does not block the attempt. -/
theorem c6_duplicate_check_witness :
    (createRegistration allValid noFaults exDB6 1 exSubmit).1 ≠
      .error .DuplicateRegistration := by
  have h := c6_duplicate_check allValid noFaults exDB6 1 exSubmit
    { ID := 1, Name := "d" } { ID := 1, AccountID := 1 } (by decide)
  exact h.2 (by decide)

/-- Counterexample to C7 as stated: in `exDB7` the slot exists, is valid
and full (occupancy 1 = capacity 1), yet the admission attempt fails with
`DuplicateRegistration`, not `NotEnoughCapacity`, because the duplicate
check runs first and patient 1 already holds a non-terminated booking. -/
theorem c7_counterexample_duplicate_first :
    (∃ s ∈ exDB7.schedules, schedSlotKey s = exKey ∧ allValid s = true ∧
        s.Current ≥ s.Capacity) ∧
    (createRegistration allValid noFaults exDB7 1 exSubmit).1 =
      .error .DuplicateRegistration ∧
    (createRegistration allValid noFaults exDB7 1 exSubmit).1 ≠
      .error .NotEnoughCapacity := by decide

/-- C7 amended: an admission attempt that reaches the capacity check (the
request is well-formed, department and patient exist, and no
non-terminated duplicate exists for the tuple) on an existing, valid slot
whose occupancy is at least its capacity fails with `NotEnoughCapacity`
(the source's name for CapacityExceeded) and leaves the store — in
particular the occupancy — unchanged. -/
theorem c7_capacity_exceeded (v : DepartmentSchedule → Bool)
    (f : StoreFaults) (db : DB) (callerID : Nat) (sub : Submit)
    (dept : Department) (patient : Patient) (sched : DepartmentSchedule)
    (hsetup : AdmitSetup db callerID sub dept patient)
    (hnodup : ∀ r ∈ db.registrations, isDupOf dept patient sub r →
        r.Status = terminated)
    (hfind : db.schedules.find? (whereSched (schedQueryOf dept sub)) =
        some sched)
    (hvalid : v sched = true)
    (hfull : sched.Current ≥ sched.Capacity) :
    createRegistration v f db callerID sub =
      (.error .NotEnoughCapacity, db) := by
  obtain ⟨hhd, hdep, hpat, hD0, hY, hM, hD, hP⟩ := hsetup
  have hDept : dept.ID ≠ 0 := by rw [findDepartment_id hdep]; exact hD0
  have hH : sub.HalfDay ≠ "" := ne_empty_of_isValidHalfDay hhd
  have ha : (db.registrations.filter
      (whereReg (dupQueryOf dept patient sub))).any
        (fun r => r.Status != terminated) = false := by
    rw [Bool.eq_false_iff]
    intro h
    obtain ⟨r, hr, hd, hs⟩ :=
      (dup_any_iff db dept patient sub hP hDept hY hM hD hH).mp h
    exact hs (hnodup r hr hd)
  simp only [createRegistration, hhd, hdep, hpat, ha, hfind]
  rw [if_neg (by simp), if_neg (by simp), if_neg (by simp [hvalid]),
    if_pos hfull]

/-- Witness for C7 (amended) at `exDB7b`: full slot, no duplicates. -/
theorem c7_capacity_exceeded_witness :
    createRegistration allValid noFaults exDB7b 1 exSubmit =
      (.error .NotEnoughCapacity, exDB7b) :=
  c7_capacity_exceeded allValid noFaults exDB7b 1 exSubmit
    { ID := 1, Name := "d" } { ID := 1, AccountID := 1 } exSched7b
    (by decide) (by decide) (by decide) (by decide) (by decide)

/-- Witness for C10 at the non-numeric string "abc" and the store
`exDB4`. -/
theorem c10_malformed_id_means_zero_witness :
    StrToUInt "abc" = 0 ∧
    DoctorAccessToMileStone exDB4 "1" "abc" =
      DoctorAccessToMileStone exDB4 "1" "0" ∧
    DoctorAccessToRegistration exDB4 "1" "abc" =
      DoctorAccessToRegistration exDB4 "1" "0" ∧
    PatientAccessToRegistration exDB4 "1" "abc" =
      PatientAccessToRegistration exDB4 "1" "0" :=
  c10_malformed_id_means_zero "abc" (by decide) exDB4 "1" "1"
